import Mathlib

/-!
Shallow embedding of the core synchronization and resolution-cache layer of the
`android-ble` crate (files `async_util.rs`, `util.rs`, `error.rs`,
`characteristic.rs`, `service.rs`, `device.rs`), together with theorems
settling the specification claims about it.

Modelling conventions:
* `Instant` and `Duration` are natural numbers (an abstract clock tick count).
* `Mutex`-protected state becomes explicit state passing; each Rust method that
  mutates state is a Lean function returning the updated state.
* `Arc`/`Weak` pairs are modelled by explicit strong-reference counts (for the
  `Notifier`) or by an aliveness flag / `Option` (for the `Excluder`'s
  last-value holder and the `CachedWeak` cache).
* The `async_broadcast` wake channel is modelled by the delivery instant of the
  broadcast signal, if any; a poll-level race (`futures_lite`'s `or`) is
  resolved by comparing that instant with the local deadline.
-/

namespace AndroidBle

/-- Instant.checked_duration_since from Rust std: `some (a - b)` when `b ≤ a`,
`none` when the instant `a` is earlier than `b`. -/
def checkedDurationSince (a b : Nat) : Option Nat :=
  if b ≤ a then some (a - b) else none

/-! ## Excluder / LockMark / ResultWaiter (async_util.rs lines 13-219) -/

/-- LockMark from async_util.rs lines 22-28: the lock generation id and the
`OnceCell<Instant>` committed deadline (`tp_timeout`).  The broadcast channel
itself is modelled at the use sites by signal-delivery instants. -/
structure LockMark where
  id : Nat
  tpTimeout : Option Nat
deriving DecidableEq

/-- Excluder state from async_util.rs lines 14-18: the current lock generation
(`inner`), the shared last-completed-value holder (`last_val`), and the
configured default timeout.  `nextLockId` models the global `NEXT_LOCK_ID`
counter of `unchecked_set_lock` (line 134). -/
structure ExcluderState (T : Type) where
  inner : Option LockMark
  lastVal : Option T
  nextLockId : Nat
  timeout : Nat
deriving DecidableEq

/-- ResultWaiter from async_util.rs lines 31-36, as handed out by
`unchecked_set_lock`: the generation it observes, the shared `tp_timeout`
cell's current content, and the configured timeout.  The receiver end of the
broadcast channel is modelled at the use site. -/
structure ResultWaiterView where
  markId : Nat
  tpTimeout : Option Nat
  timeout : Nat
deriving DecidableEq

/-- Excluder::unchecked_set_lock (async_util.rs lines 129-152): installs a
fresh LockMark with the next global id and an unset deadline cell, and returns
the ResultWaiter bound to it. -/
def unchecked_set_lock {T : Type} (s : ExcluderState T) :
    ExcluderState T × ResultWaiterView :=
  ({ s with
      inner := some { id := s.nextLockId, tpTimeout := none },
      nextLockId := s.nextLockId + 1 },
   { markId := s.nextLockId, tpTimeout := none, timeout := s.timeout })

/-- Excluder::last_value (async_util.rs lines 64-66). -/
def last_value {T : Type} (s : ExcluderState T) : Option T :=
  s.lastVal

/-- Excluder::unlock (async_util.rs lines 155-165): stores the result in the
last-value holder, clears the current lock generation, and broadcasts the wake
signal if a generation existed.  The returned Bool records whether the
broadcast was sent. -/
def unlock {T : Type} (s : ExcluderState T) (result : T) : ExcluderState T × Bool :=
  ({ s with lastVal := some result, inner := none }, s.inner.isSome)

/-- Excluder::try_lock (async_util.rs lines 115-127): returns `none` when a
lock generation is active whose committed deadline is still in the future, or
which has no committed deadline; otherwise installs a fresh generation. -/
def try_lock {T : Type} (s : ExcluderState T) (now : Nat) :
    Option (ExcluderState T × ResultWaiterView) :=
  match s.inner with
  | some lockMark =>
    match lockMark.tpTimeout with
    | some tp => if tp > now then none else some (unchecked_set_lock s)
    | none => none
  | none => some (unchecked_set_lock s)

/-- The reset of `waited_without_tp_timeout` at async_util.rs lines 80-84:
the remembered generation id is dropped when it no longer matches the active
generation. -/
def resetWaited (waited : Option Nat) (id : Nat) : Option Nat :=
  match waited with
  | some prevId => if prevId ≠ id then none else some prevId
  | none => none

/-- Outcome of one iteration of the waiting loop inside Excluder::lock:
either break out of the loop and reclaim (install a fresh generation), or
sleep for `dur` ticks racing the generation's wake signal, carrying the
updated `waited_without_tp_timeout` state. -/
inductive LockDecision where
  | reclaim
  | wait (dur : Nat) (waited : Option Nat)
deriving DecidableEq

/-- One iteration of the loop inside Excluder::lock (async_util.rs lines
77-110), as a pure decision function of the observed guard contents, the
task-local `waited_without_tp_timeout` register, the current instant and the
configured default timeout.  `reclaim` corresponds to `break guard_inner`,
after which `unchecked_set_lock` runs. -/
def lockStep (mark : Option LockMark) (waited0 : Option Nat) (now timeout : Nat) :
    LockDecision :=
  match mark with
  | none => .reclaim
  | some lockMark =>
    let waited := resetWaited waited0 lockMark.id
    match lockMark.tpTimeout with
    | some tp =>
      match checkedDurationSince tp now with
      | some dur => if dur = 0 then .reclaim else .wait dur waited
      | none => .reclaim
    | none =>
      match waited with
      | none =>
        if timeout = 0 then .reclaim else .wait timeout (some lockMark.id)
      | some _ => .reclaim

/-- Environment observed by ResultWaiter::wait_unlock: the instant at which
the generation's broadcast signal is delivered to this receiver (if ever),
whether the weak reference to the last-value holder still upgrades when read,
and the holder's contents at that moment. -/
structure WaitContext (T : Type) where
  signalAt : Option Nat
  excluderAlive : Bool
  lastVal : Option T
deriving DecidableEq

/-- ResultWaiter::wait_unlock (async_util.rs lines 190-208): commits the
deadline `now + timeout` into the shared OnceCell (first commit wins), races
the wake signal against that deadline, and on a won race reads the last value
through the weak reference.  Returns the result together with the committed
cell content.  The race is won by the signal exactly when it is delivered
strictly before the deadline. -/
def wait_unlock {T : Type} (w : ResultWaiterView) (now : Nat) (ctx : WaitContext T) :
    Option T × Nat :=
  let tp := now + w.timeout
  let committed := w.tpTimeout.getD tp
  let recvOk : Bool :=
    match ctx.signalAt with
    | some ts => decide (ts < tp)
    | none => false
  let res :=
    if recvOk then
      if ctx.excluderAlive then ctx.lastVal else none
    else none
  (res, committed)

/-! ## Notifier / NotifierInner / NotifierReceiver (async_util.rs lines 221-329)

The `Arc<NotifierInner>` reference counting is made explicit: `counts` maps a
subscription-state id to the number of strong references to that
`NotifierInner`; the `Notifier` keeps only a weak reference (`curWeak`), which
upgrades exactly when the strong count of its target is positive.  `starts`
counts invocations of `on_start`; `stops` lists, in order, the state ids whose
`on_stop` has run (it runs from `Drop for NotifierInner`, i.e. exactly when a
state's strong count reaches zero). -/

structure NotifierModel where
  counts : Nat → Nat
  curWeak : Option Nat
  nextId : Nat
  starts : Nat
  stops : List Nat

/-- Upgrade of the notifier's weak reference (`guard_inner.upgrade()`):
succeeds with the current subscription-state id exactly when that state still
has a strong reference. -/
def upgradeTarget (m : NotifierModel) : Option Nat :=
  match m.curWeak with
  | some id => if 0 < m.counts id then some id else none
  | none => none

/-- Notifier::subscribe (async_util.rs lines 256-282).  If the weak reference
upgrades, a new receiver sharing the existing subscription state is returned
(one more strong reference) and `on_start` is not invoked.  Otherwise
`on_start` runs (`startOk` is its outcome); on success a fresh subscription
state is created with one strong reference (held by the returned receiver) and
the notifier's weak reference is repointed at it; on failure the error
propagates and the notifier is left unchanged.  Returns the state id held by
the returned receiver, or `none` on `on_start` failure. -/
def subscribe (m : NotifierModel) (startOk : Bool) : NotifierModel × Option Nat :=
  match upgradeTarget m with
  | some id =>
    ({ m with counts := Function.update m.counts id (m.counts id + 1) }, some id)
  | none =>
    if startOk then
      ({ m with
          starts := m.starts + 1,
          counts := Function.update m.counts m.nextId 1,
          curWeak := some m.nextId,
          nextId := m.nextId + 1 }, some m.nextId)
    else
      ({ m with starts := m.starts + 1 }, none)

/-- Release of one strong reference to the subscription state `id` (a
NotifierReceiver dropping its holder).  When the last strong reference is
released, `Drop for NotifierInner` (async_util.rs lines 325-329) runs
`on_stop`, recorded by appending `id` to `stops`. -/
def dropHandle (m : NotifierModel) (id : Nat) : NotifierModel :=
  match m.counts id with
  | 0 => m
  | 1 =>
    { m with counts := Function.update m.counts id 0, stops := m.stops ++ [id] }
  | n + 2 =>
    { m with counts := Function.update m.counts id (n + 1) }

/-! ## StreamUntil (async_util.rs lines 331-388)

Streams are modelled at poll level.  An underlying stream is represented by
the list of results it would return on successive polls; the combinators of
`StreamUntil::create` (`or` from futures_lite, the sentinel `StreamUntil`
poll_next, and `fuse`) are functions over these poll results. -/

/-- Poll result of a stream: `pending`, `ready (some x)` (an item), or
`ready none` (end of stream). -/
inductive Poll (α : Type) where
  | pending
  | ready (item : Option α)
deriving DecidableEq

/-- StreamUntil::poll_next (async_util.rs lines 376-386): polls the event
stream; an event satisfying the checker or the end of the event stream yields
`Ready(None)`, everything else (pending, or an event failing the checker) is
`Pending`. -/
def untilPoll {T E : Type} (event_checker : E → Bool) (q : Poll E) : Poll T :=
  match q with
  | .ready (some event) => if event_checker event then .ready none else .pending
  | .ready none => .ready none
  | .pending => .pending

/-- One poll of futures_lite's `or` combinator on streams: the first stream is
polled; if it is ready its result is returned, otherwise the second stream's
poll result decides. -/
def orPoll {T : Type} (p q : Poll T) : Poll T :=
  match p with
  | .ready item => .ready item
  | .pending => q

/-- Transition of the `fuse` state after one combined poll: the stream
becomes permanently done exactly when this poll returned end-of-stream. -/
def nextDone {T : Type} (r : Poll T) : Bool :=
  match r with
  | .ready none => true
  | .ready (some _) => false
  | .pending => false

/-- The fused stream built by StreamUntil::create (async_util.rs lines
353-365), run over a list of per-poll results of the primary stream and the
event stream.  The Bool is the `fuse` state: once the combined stream has
returned `ready none`, every later poll returns `ready none` without touching
the underlying streams. -/
def runStreamUntil {T E : Type} (event_checker : E → Bool) :
    Bool → List (Poll T × Poll E) → List (Poll T)
  | _, [] => []
  | true, _ :: rest => .ready none :: runStreamUntil event_checker true rest
  | false, (p, q) :: rest =>
    orPoll p (untilPoll event_checker q) ::
      runStreamUntil event_checker
        (nextDone (orPoll p (untilPoll event_checker q))) rest

/-- Items yielded by a list of poll results. -/
def pollItems {α : Type} : List (Poll α) → List α
  | [] => []
  | .ready (some x) :: rest => x :: pollItems rest
  | .ready none :: rest => pollItems rest
  | .pending :: rest => pollItems rest

/-- One list is an initial segment of another. -/
def listPrefixOf {α : Type} (a b : List α) : Prop :=
  ∃ t, a ++ t = b

/-! ## CachedWeak (resolution cache)

The type `CachedWeak<T>` and its method `get_or_find` live in `gatt_tree.rs`,
which is not among the provided sources; only its callers
(`Characteristic::get_inner`, `Service::get_inner`, `Device::get_connection`,
`Descriptor::get_inner`) are. -/

/-- Modelled from the spec: `CachedWeak::get_or_find` of `gatt_tree.rs` is not
among the provided sources.  Per spec section 4.4, the cache holds a weak
reference; `cached = some h` models a weak reference that still upgrades to
the handle `h`, `cached = none` models an empty or dead weak reference.
`get_or_find` returns the cached strong handle if the weak reference still
resolves; otherwise it invokes the fallback lookup and, on success, replaces
the cached weak reference with one derived from the newly obtained handle; on
failure the error is returned and the cache is not updated.  The result is
(outcome, cache afterwards, whether the fallback was invoked). -/
def get_or_find {H Err : Type} (cached : Option H) (fallback : Except Err H) :
    Except Err H × Option H × Bool :=
  match cached with
  | some h => (.ok h, some h, false)
  | none =>
    match fallback with
    | .ok h => (.ok h, some h, true)
    | .error e => (.error e, none, true)

/-! ## Error model (error.rs) and Option/Int extensions (util.rs) -/

/-- AttError from error.rs lines 299-301: a raw ATT protocol error code byte. -/
structure AttError where
  code : Nat
deriving DecidableEq

/-- BluetoothStatusCode from error.rs lines 127-140. -/
inductive BluetoothStatusCode where
  | notAllowed
  | notEnabled
  | notBonded
  | gattWriteNotAllowed
  | gattWriteBusy
  | missingBluetoothConnectPermission
  | profileServiceNotBound
  | unknown
  | featureNotSupported
  | unknownError (code : Int)
deriving DecidableEq

/-- NativeError from error.rs lines 10-18.  The `Global<Throwable>` payload of
`JavaError` carries no information relevant to any claim and is dropped. -/
inductive NativeError where
  | gattError (e : AttError)
  | bluetoothStatusCode (c : BluetoothStatusCode)
  | javaError
  | javaCastError
  | javaNullResult
  | javaCallReturnedFalse
deriving DecidableEq

/-- ErrorKind from error.rs lines 244-276. -/
inductive ErrorKind where
  | adapterUnavailable
  | alreadyScanning
  | connectionFailed
  | notConnected
  | notSupported
  | notAuthorized
  | notReady
  | notFound
  | invalidParameter
  | timeout
  | protocol (e : AttError)
  | internal
  | serviceChanged
  | other
deriving DecidableEq

/-- Error from error.rs lines 194-199. -/
structure Error where
  kind : ErrorKind
  source : Option NativeError
  message : String
deriving DecidableEq

/-- From ErrorKind for Error (error.rs lines 90-98). -/
def errorOfKind (kind : ErrorKind) : Error :=
  { kind := kind, source := none, message := "" }

/-- Constants of `android.bluetooth.BluetoothStatusCodes`.  The generated
bindings are not among the provided sources; the values are the documented
Android API constants referenced by the comment at error.rs line 127. -/
def ERROR_BLUETOOTH_NOT_ENABLED : Int := 1
def ERROR_BLUETOOTH_NOT_ALLOWED : Int := 2
def ERROR_DEVICE_NOT_BONDED : Int := 3
def ERROR_MISSING_BLUETOOTH_CONNECT_PERMISSION : Int := 6
def ERROR_PROFILE_SERVICE_NOT_BOUND : Int := 9
def FEATURE_NOT_SUPPORTED : Int := 11
def ERROR_GATT_WRITE_NOT_ALLOWED : Int := 200
def ERROR_GATT_WRITE_REQUEST_BUSY : Int := 201
def ERROR_UNKNOWN : Int := 2147483647

/-- From NonZeroI32 for BluetoothStatusCode (error.rs lines 171-189); callers
ensure `code ≠ 0`. -/
def bluetoothStatusCodeOfRaw (code : Int) : BluetoothStatusCode :=
  if code = ERROR_BLUETOOTH_NOT_ALLOWED then .notAllowed
  else if code = ERROR_BLUETOOTH_NOT_ENABLED then .notEnabled
  else if code = ERROR_DEVICE_NOT_BONDED then .notBonded
  else if code = ERROR_GATT_WRITE_NOT_ALLOWED then .gattWriteNotAllowed
  else if code = ERROR_GATT_WRITE_REQUEST_BUSY then .gattWriteBusy
  else if code = ERROR_MISSING_BLUETOOTH_CONNECT_PERMISSION then
    .missingBluetoothConnectPermission
  else if code = ERROR_PROFILE_SERVICE_NOT_BOUND then .profileServiceNotBound
  else if code = ERROR_UNKNOWN then .unknown
  else if code = FEATURE_NOT_SUPPORTED then .featureNotSupported
  else .unknownError code

/-- Raw codes matched by a dedicated arm of From NonZeroI32 for
BluetoothStatusCode (error.rs lines 174-185); every other nonzero code falls
back to `UnknownError`. -/
def mappedStatusCodes : List Int :=
  [ERROR_BLUETOOTH_NOT_ALLOWED, ERROR_BLUETOOTH_NOT_ENABLED,
   ERROR_DEVICE_NOT_BONDED, ERROR_GATT_WRITE_NOT_ALLOWED,
   ERROR_GATT_WRITE_REQUEST_BUSY, ERROR_MISSING_BLUETOOTH_CONNECT_PERMISSION,
   ERROR_PROFILE_SERVICE_NOT_BOUND, ERROR_UNKNOWN, FEATURE_NOT_SUPPORTED]

/-- Kind classification in From NativeError for Error (error.rs lines
100-121). -/
def errorKindOfNative (err : NativeError) : ErrorKind :=
  match err with
  | .gattError attError => .protocol attError
  | .bluetoothStatusCode code =>
    match code with
    | .notAllowed => .notAuthorized
    | .notEnabled => .adapterUnavailable
    | .notBonded => .notAuthorized
    | .gattWriteNotAllowed => .notAuthorized
    | .gattWriteBusy => .notReady
    | .missingBluetoothConnectPermission => .notAuthorized
    | .profileServiceNotBound => .other
    | .unknown => .other
    | .featureNotSupported => .notSupported
    | .unknownError _ => .other
  | .javaError => .internal
  | .javaCastError => .internal
  | .javaNullResult => .internal
  | .javaCallReturnedFalse => .internal

/-- From NativeError for Error (error.rs lines 100-125).  The message is the
Display rendering of the native error; its text is not modelled. -/
def errorOfNative (err : NativeError) : Error :=
  { kind := errorKindOfNative err, source := some err, message := "" }

/-- IntExt::check_status_code for i32 (util.rs lines 126-134): zero is Ok,
any nonzero code wraps the mapped BluetoothStatusCode into an error. -/
def check_status_code (v : Int) : Except Error Unit :=
  if v = 0 then .ok ()
  else .error (errorOfNative (.bluetoothStatusCode (bluetoothStatusCodeOfRaw v)))

/-- GattTree::find_connection, abstracted: the process-wide resource tree's
connection table is represented by the list of device ids that currently have
a live connection entry (`gatt_tree.rs` is not among the provided sources;
only presence or absence of the entry matters to the claims). -/
def find_connection (conns : List Nat) (devId : Nat) : Option Unit :=
  if devId ∈ conns then some () else none

/-- OptionExt::ok_or_check_conn (util.rs lines 98-107): a missing value is
turned into NotConnected when no connection entry exists for the device id at
this moment, and into ServiceChanged when the connection is still registered. -/
def ok_or_check_conn {T : Type} (o : Option T) (conns : List Nat) (devId : Nat) :
    Except Error T :=
  match o with
  | some v => .ok v
  | none =>
    .error
      (if (find_connection conns devId).isNone then errorOfKind .notConnected
       else errorOfKind .serviceChanged)

/-! ## Characteristic / Service / Device identity (characteristic.rs,
service.rs, device.rs)

`DeviceId` (from `types.rs`, not among the provided sources) and `Uuid` are
modelled as naturals; the cached `CachedWeak` field and the other non-identity
fields are kept as opaque type parameters so that theorems quantify over every
possible cache state.  A `Hasher` is modelled by the list of field values fed
to it, in order. -/

/-- Characteristic from characteristic.rs lines 17-23. -/
structure Characteristic (Inner : Type) where
  dev_id : Nat
  service_id : Nat
  char_id : Nat
  inner : Inner

/-- PartialEq for Characteristic (characteristic.rs lines 25-31). -/
def charEq {Inner : Type} (a b : Characteristic Inner) : Bool :=
  a.dev_id == b.dev_id && a.service_id == b.service_id && a.char_id == b.char_id

/-- Hash for Characteristic (characteristic.rs lines 35-41): feeds dev_id,
service_id and char_id to the hasher. -/
def charHash {Inner : Type} (c : Characteristic Inner) : List Nat :=
  [c.dev_id, c.service_id, c.char_id]

/-- Service from service.rs lines 14-19. -/
structure Service (Inner : Type) where
  dev_id : Nat
  service_id : Nat
  inner : Inner

/-- PartialEq for Service (service.rs lines 21-25). -/
def serviceEq {Inner : Type} (a b : Service Inner) : Bool :=
  a.dev_id == b.dev_id && a.service_id == b.service_id

/-- Hash for Service (service.rs lines 29-34): feeds dev_id and service_id to
the hasher. -/
def serviceHash {Inner : Type} (s : Service Inner) : List Nat :=
  [s.dev_id, s.service_id]

/-- Device from device.rs lines 20-26; the platform handle, the cached
connection and the once-connected cell are opaque non-identity fields. -/
structure Device (Dev Conn Once : Type) where
  id : Nat
  device : Dev
  connection : Conn
  once_connected : Once

/-- PartialEq for Device (device.rs lines 28-32). -/
def deviceEq {Dev Conn Once : Type} (a b : Device Dev Conn Once) : Bool :=
  a.id == b.id

/-- Hash for Device (device.rs lines 36-40): feeds the id to the hasher. -/
def deviceHash {Dev Conn Once : Type} (d : Device Dev Conn Once) : List Nat :=
  [d.id]

/-! ## Concrete example states used by witnesses and counterexamples -/

/-- An excluder state holding a lock generation whose committed deadline has
already passed at instant 10. -/
def staleLockedState : ExcluderState Nat :=
  { inner := some { id := 0, tpTimeout := some 5 },
    lastVal := none, nextLockId := 1, timeout := 100 }

/-- An unlocked excluder state. -/
def unlockedState : ExcluderState Nat :=
  { inner := none, lastVal := none, nextLockId := 0, timeout := 100 }

/-- A notifier with no subscription state ever created. -/
def notifierEx : NotifierModel :=
  { counts := fun _ => 0, curWeak := none, nextId := 0, starts := 0, stops := [] }

/-- A concrete poll trace for the combined stream: the primary stream yields
10, then the event stream yields the matching event 1 while the primary is
pending, then the primary would yield 20 but the combined stream has already
terminated. -/
def untilPollsEx : List (Poll Nat × Poll Nat) :=
  [(.ready (some 10), .pending), (.pending, .ready (some 1)),
   (.ready (some 20), .pending)]

/-! # Theorems -/

/-- C3: after `unlock(v)` the last value is `some v` — for every prior state,
hence regardless of whether a lock generation was active or any waiter
existed — the current lock generation is cleared, and the wake broadcast is
sent exactly when a generation existed. -/
theorem c3_unlock_updates_last_value {T : Type} (s : ExcluderState T) (v : T) :
    last_value (unlock s v).1 = some v ∧
    (unlock s v).1.lastVal = some v ∧
    (unlock s v).1.inner = none ∧
    (unlock s v).2 = s.inner.isSome :=
  ⟨rfl, rfl, rfl, rfl⟩

/-- C7: resolution through the cached weak reference.  A cache hit returns the
cached handle without invoking the fallback; on a miss the fallback is
invoked, a successful fallback re-populates the cache so that the next access
does not re-invoke the fallback, and a failed fallback surfaces the error and
leaves the cache without a resolvable entry.  (Modelled from the spec:
`CachedWeak::get_or_find` lives in `gatt_tree.rs`, not among the provided
sources.) -/
theorem c7_cached_weak_resolution {H F : Type} :
    (∀ (h : H) (fb : Except F H), get_or_find (some h) fb = (.ok h, some h, false)) ∧
    (∀ h : H, get_or_find (none : Option H) (.ok h : Except F H) = (.ok h, some h, true)) ∧
    (∀ e : F, get_or_find (none : Option H) (.error e : Except F H) = (.error e, none, true)) ∧
    (∀ (h : H) (fb' : Except F H),
      get_or_find (get_or_find (none : Option H) (.ok h : Except F H)).2.1 fb' =
        (.ok h, some h, false)) :=
  ⟨fun _ _ => rfl, fun _ => rfl, fun _ => rfl, fun _ _ => rfl⟩

/-- C10: equality and hashing of Characteristic, Service and Device depend
only on the identifier path, never on the cached handle or the other
non-identity fields: values with the same path compare equal and hash to the
same hasher input for any cache states, and equality holds exactly when the
paths agree. -/
theorem c10_identity_ignores_cache :
    (∀ (I : Type) (d s c : Nat) (i₁ i₂ : I),
      charEq ⟨d, s, c, i₁⟩ ⟨d, s, c, i₂⟩ = true ∧
      charHash ⟨d, s, c, i₁⟩ = charHash ⟨d, s, c, i₂⟩) ∧
    (∀ (I : Type) (a b : Characteristic I),
      charEq a b = true ↔
        a.dev_id = b.dev_id ∧ a.service_id = b.service_id ∧ a.char_id = b.char_id) ∧
    (∀ (I : Type) (a : Characteristic I), charHash a = [a.dev_id, a.service_id, a.char_id]) ∧
    (∀ (I : Type) (d s : Nat) (i₁ i₂ : I),
      serviceEq ⟨d, s, i₁⟩ ⟨d, s, i₂⟩ = true ∧
      serviceHash ⟨d, s, i₁⟩ = serviceHash ⟨d, s, i₂⟩) ∧
    (∀ (I : Type) (a b : Service I),
      serviceEq a b = true ↔ a.dev_id = b.dev_id ∧ a.service_id = b.service_id) ∧
    (∀ (D C O : Type) (n : Nat) (d₁ d₂ : D) (c₁ c₂ : C) (o₁ o₂ : O),
      deviceEq ⟨n, d₁, c₁, o₁⟩ ⟨n, d₂, c₂, o₂⟩ = true ∧
      deviceHash ⟨n, d₁, c₁, o₁⟩ = deviceHash ⟨n, d₂, c₂, o₂⟩) ∧
    (∀ (D C O : Type) (a b : Device D C O), deviceEq a b = true ↔ a.id = b.id) := by
  refine ⟨?_, ?_, ?_, ?_, ?_, ?_, ?_⟩
  · intro I d s c i₁ i₂
    simp [charEq, charHash]
  · intro I a b
    simp [charEq, Bool.and_eq_true, beq_iff_eq, and_assoc]
  · intro I a
    rfl
  · intro I d s i₁ i₂
    simp [serviceEq, serviceHash]
  · intro I a b
    simp [serviceEq, Bool.and_eq_true, beq_iff_eq]
  · intro D C O n d₁ d₂ c₁ c₂ o₁ o₂
    simp [deviceEq, deviceHash]
  · intro D C O a b
    simp [deviceEq, beq_iff_eq]

/-- C8: when a resolution or result wait yields nothing, the surfaced error
kind is decided by re-checking connection liveness at that moment —
NotConnected when no connection entry exists for the device id, ServiceChanged
when the entry still exists — and a present value is returned unchanged. -/
theorem c8_invalidation_error_kind {T : Type} (o : Option T) (conns : List Nat)
    (devId : Nat) :
    (o = none → devId ∉ conns →
      ok_or_check_conn o conns devId = .error (errorOfKind .notConnected)) ∧
    (o = none → devId ∈ conns →
      ok_or_check_conn o conns devId = .error (errorOfKind .serviceChanged)) ∧
    (∀ v, o = some v → ok_or_check_conn o conns devId = .ok v) := by
  refine ⟨?_, ?_, ?_⟩
  · rintro rfl hd
    simp [ok_or_check_conn, find_connection, hd]
  · rintro rfl hd
    simp [ok_or_check_conn, find_connection, hd]
  · rintro v rfl
    rfl

/-- Witness for c8_invalidation_error_kind at concrete inputs: a missing value
with no connection entry yields NotConnected, with a live entry yields
ServiceChanged, and a present value passes through. -/
theorem c8_invalidation_error_kind_witness :
    ok_or_check_conn (none : Option Nat) [] 0 = .error (errorOfKind .notConnected) ∧
    ok_or_check_conn (none : Option Nat) [0] 0 = .error (errorOfKind .serviceChanged) ∧
    ok_or_check_conn (some 7) [] 0 = .ok 7 :=
  ⟨(c8_invalidation_error_kind none [] 0).1 rfl (by decide),
   (c8_invalidation_error_kind none [0] 0).2.1 rfl (by decide),
   (c8_invalidation_error_kind (some 7) [] 0).2.2 7 rfl⟩

/-- C9: `check_status_code` returns Ok exactly on zero; every nonzero code is
wrapped into an error whose source is the BluetoothStatusCode mapped from the
raw code, and every nonzero code outside the fixed mapping falls back to
`UnknownError` carrying the code. -/
theorem c9_check_status_code (v : Int) :
    (check_status_code v = .ok () ↔ v = 0) ∧
    (v ≠ 0 →
      check_status_code v =
        .error
          { kind := errorKindOfNative (.bluetoothStatusCode (bluetoothStatusCodeOfRaw v)),
            source := some (.bluetoothStatusCode (bluetoothStatusCodeOfRaw v)),
            message := "" }) ∧
    (v ∉ mappedStatusCodes → bluetoothStatusCodeOfRaw v = .unknownError v) := by
  refine ⟨?_, ?_, ?_⟩
  · constructor
    · intro h
      by_contra hv
      simp [check_status_code, hv] at h
    · intro h
      simp [check_status_code, h]
  · intro hv
    simp [check_status_code, hv, errorOfNative]
  · intro hv
    simp only [mappedStatusCodes, List.mem_cons, List.not_mem_nil, or_false, not_or] at hv
    obtain ⟨h1, h2, h3, h4, h5, h6, h7, h8, h9⟩ := hv
    simp [bluetoothStatusCodeOfRaw, h1, h2, h3, h4, h5, h6, h7, h8, h9]

/-- Witness for c9_check_status_code at concrete inputs: code 42 is unmapped
and surfaces UnknownError, code 0 is Ok. -/
theorem c9_check_status_code_witness :
    check_status_code 42 =
      .error
        { kind := errorKindOfNative (.bluetoothStatusCode (bluetoothStatusCodeOfRaw 42)),
          source := some (.bluetoothStatusCode (bluetoothStatusCodeOfRaw 42)),
          message := "" } ∧
    bluetoothStatusCodeOfRaw 42 = .unknownError 42 ∧
    check_status_code 0 = .ok () :=
  ⟨(c9_check_status_code 42).2.1 (by decide),
   (c9_check_status_code 42).2.2 (by decide),
   (c9_check_status_code 0).1.mpr rfl⟩

/-- C4 counterexample: the claim says try_lock returns Some only when no lock
generation is active, but the code also grants the lock when the active
generation's committed deadline has already passed: at instant 10 the state
`staleLockedState` is locked (deadline 5) yet try_lock succeeds. -/
theorem c4_try_lock_counterexample :
    staleLockedState.inner ≠ none ∧ (try_lock staleLockedState 10).isSome = true := by
  constructor
  · decide
  · rfl

/-- C4 amended: try_lock never blocks and returns Some exactly when the
excluder is unlocked or the active generation's committed deadline is not in
the future (stale-lock reclamation); in the successful case it installs the
fresh lock generation produced by unchecked_set_lock. -/
theorem c4_try_lock_amended {T : Type} (s : ExcluderState T) (now : Nat) :
    ((try_lock s now).isSome = true ↔
      s.inner = none ∨
        ∃ m tp, s.inner = some m ∧ m.tpTimeout = some tp ∧ tp ≤ now) ∧
    (∀ r, try_lock s now = some r → r = unchecked_set_lock s) := by
  constructor
  · constructor
    · intro h
      unfold try_lock at h
      rcases hs : s.inner with _ | m
      · exact Or.inl rfl
      · simp only [hs] at h
        rcases htp : m.tpTimeout with _ | tp
        · simp only [htp] at h
          simp at h
        · simp only [htp] at h
          by_cases hnow : tp > now
          · rw [if_pos hnow] at h
            simp at h
          · exact Or.inr ⟨m, tp, rfl, htp, by omega⟩
    · rintro (hs | ⟨m, tp, hs, htp, hle⟩)
      · unfold try_lock
        simp only [hs]
        rfl
      · unfold try_lock
        simp only [hs, htp]
        rw [if_neg (by omega)]
        rfl
  · intro r hr
    unfold try_lock at hr
    rcases hs : s.inner with _ | m
    · simp only [hs] at hr
      exact (Option.some.inj hr).symm
    · simp only [hs] at hr
      rcases htp : m.tpTimeout with _ | tp
      · simp only [htp] at hr
        simp at hr
      · simp only [htp] at hr
        by_cases hnow : tp > now
        · rw [if_pos hnow] at hr
          simp at hr
        · rw [if_neg hnow] at hr
          exact (Option.some.inj hr).symm

/-- Witness for c4_try_lock_amended at concrete inputs: an unlocked excluder
is locked by try_lock and the returned pair is the one installed by
unchecked_set_lock. -/
theorem c4_try_lock_amended_witness :
    (try_lock unlockedState 0).isSome = true ∧
    unchecked_set_lock unlockedState = unchecked_set_lock unlockedState :=
  ⟨(c4_try_lock_amended unlockedState 0).1.mpr (Or.inl rfl),
   (c4_try_lock_amended unlockedState 0).2 (unchecked_set_lock unlockedState) rfl⟩

/-- C1: the waiting decision of Excluder::lock while a generation is active.
With a committed deadline the task waits exactly until that deadline and
reclaims immediately once it has passed; with no committed deadline a task
that has not yet waited on this generation waits the configured default
timeout while recording the generation id; a task that already waited on
this very generation (same id, still no committed deadline) breaks out; a
recorded id from a different generation is discarded so the decision restarts
as if the task had not waited; and breaking out installs a fresh lock
generation via unchecked_set_lock. -/
theorem c1_lock_wait_decision (m : LockMark) (waited : Option Nat) (now timeout : Nat) :
    (∀ tp, m.tpTimeout = some tp → tp ≤ now →
      lockStep (some m) waited now timeout = .reclaim) ∧
    (∀ tp, m.tpTimeout = some tp → now < tp →
      lockStep (some m) waited now timeout = .wait (tp - now) (resetWaited waited m.id)) ∧
    (m.tpTimeout = none → resetWaited waited m.id = none → 0 < timeout →
      lockStep (some m) waited now timeout = .wait timeout (some m.id)) ∧
    (m.tpTimeout = none → resetWaited waited m.id = none → timeout = 0 →
      lockStep (some m) waited now timeout = .reclaim) ∧
    (∀ prevId, m.tpTimeout = none → resetWaited waited m.id = some prevId →
      lockStep (some m) waited now timeout = .reclaim) ∧
    (∀ prevId, waited = some prevId → prevId ≠ m.id →
      lockStep (some m) waited now timeout = lockStep (some m) none now timeout) ∧
    (∀ (T : Type) (s : ExcluderState T),
      (unchecked_set_lock s).1.inner = some { id := s.nextLockId, tpTimeout := none }) := by
  refine ⟨?_, ?_, ?_, ?_, ?_, ?_, ?_⟩
  · intro tp htp hle
    by_cases hnow : now ≤ tp
    · have hdur : checkedDurationSince tp now = some (tp - now) := by
        simp [checkedDurationSince, hnow]
      have hz : tp - now = 0 := by omega
      simp [lockStep, htp, hdur, hz]
    · have hdur : checkedDurationSince tp now = none := by
        simp [checkedDurationSince, hnow]
      simp [lockStep, htp, hdur]
  · intro tp htp hlt
    have hdur : checkedDurationSince tp now = some (tp - now) := by
      simp [checkedDurationSince]
      omega
    have hne : ¬(tp - now = 0) := by omega
    simp [lockStep, htp, hdur, hne]
  · intro htp hw hpos
    simp [lockStep, htp, hw]
    omega
  · intro htp hw hz
    simp [lockStep, htp, hw, hz]
  · intro prevId htp hw
    simp [lockStep, htp, hw]
  · intro prevId hwaited hne
    simp [lockStep, resetWaited, hwaited, hne]
  · intro T s
    rfl

/-- Witness for c1_lock_wait_decision at concrete inputs, one per decision
branch: passed committed deadline, future committed deadline, first wait on an
uncommitted generation, repeated wait on the same uncommitted generation, and
the restart after a generation change. -/
theorem c1_lock_wait_decision_witness :
    lockStep (some { id := 7, tpTimeout := some 5 }) none 10 100 = .reclaim ∧
    lockStep (some { id := 7, tpTimeout := some 15 }) none 10 100 = .wait 5 none ∧
    lockStep (some { id := 7, tpTimeout := none }) none 10 100 = .wait 100 (some 7) ∧
    lockStep (some { id := 7, tpTimeout := none }) (some 7) 10 100 = .reclaim ∧
    lockStep (some { id := 7, tpTimeout := none }) (some 3) 10 100 =
      lockStep (some { id := 7, tpTimeout := none }) none 10 100 :=
  ⟨(c1_lock_wait_decision { id := 7, tpTimeout := some 5 } none 10 100).1 5 rfl (by decide),
   (c1_lock_wait_decision { id := 7, tpTimeout := some 15 } none 10 100).2.1 15 rfl (by decide),
   (c1_lock_wait_decision { id := 7, tpTimeout := none } none 10 100).2.2.1 rfl rfl (by decide),
   (c1_lock_wait_decision { id := 7, tpTimeout := none } (some 7) 10 100).2.2.2.2.1 7 rfl rfl,
   (c1_lock_wait_decision { id := 7, tpTimeout := none } (some 3) 10 100).2.2.2.2.2.1 3 rfl
     (by decide)⟩

/-- C2: outcomes of a single ResultWaiter::wait_unlock call.  The committed
deadline is the call instant plus the configured timeout when the cell was
unset (first commit wins: a previously committed value is kept).  The call
returns some v exactly when the wake signal is delivered strictly before the
deadline, the owning Excluder is still alive at the read, and the last value
holder contains v; it returns none when no signal arrives, when the signal
arrives at or after the deadline, or when the Excluder has been destroyed —
and these outcomes are mutually exclusive because the result is a function of
the race. -/
theorem c2_wait_unlock_outcomes {T : Type} (w : ResultWaiterView) (now : Nat)
    (ctx : WaitContext T) :
    (w.tpTimeout = none → (wait_unlock w now ctx).2 = now + w.timeout) ∧
    (∀ prior, w.tpTimeout = some prior → (wait_unlock w now ctx).2 = prior) ∧
    (∀ ts v, ctx.signalAt = some ts → ts < now + w.timeout →
      ctx.excluderAlive = true → ctx.lastVal = some v →
      (wait_unlock w now ctx).1 = some v) ∧
    (ctx.signalAt = none → (wait_unlock w now ctx).1 = none) ∧
    (∀ ts, ctx.signalAt = some ts → now + w.timeout ≤ ts →
      (wait_unlock w now ctx).1 = none) ∧
    (ctx.excluderAlive = false → (wait_unlock w now ctx).1 = none) ∧
    (∀ v, (wait_unlock w now ctx).1 = some v →
      ctx.excluderAlive = true ∧ ctx.lastVal = some v ∧
        ∃ ts, ctx.signalAt = some ts ∧ ts < now + w.timeout) := by
  refine ⟨?_, ?_, ?_, ?_, ?_, ?_, ?_⟩
  · intro hcell
    simp [wait_unlock, hcell]
  · intro prior hcell
    simp [wait_unlock, hcell]
  · intro ts v hsig hlt halive hval
    simp [wait_unlock, hsig, hlt, halive, hval]
  · intro hsig
    simp [wait_unlock, hsig]
  · intro ts hsig hge
    have : ¬(ts < now + w.timeout) := by omega
    simp [wait_unlock, hsig, this]
  · intro halive
    simp [wait_unlock, halive]
  · intro v hres
    unfold wait_unlock at hres
    rcases hsig : ctx.signalAt with _ | ts
    · simp [hsig] at hres
    · simp only [hsig] at hres
      by_cases hlt : ts < now + w.timeout
      · rcases halive : ctx.excluderAlive with _ | _
        · simp [hlt, halive] at hres
        · simp [hlt, halive] at hres
          exact ⟨rfl, hres, ts, rfl, hlt⟩
      · simp [hlt] at hres

/-- Witness for c2_wait_unlock_outcomes at concrete inputs: with timeout 100,
a signal at instant 50 with a live Excluder holding value 42 yields some 42
and the committed deadline 100; with no signal the call yields none; a dead
Excluder yields none. -/
theorem c2_wait_unlock_outcomes_witness :
    (wait_unlock { markId := 0, tpTimeout := none, timeout := 100 } 0
      { signalAt := some 50, excluderAlive := true, lastVal := some 42 }).1 = some 42 ∧
    (wait_unlock { markId := 0, tpTimeout := none, timeout := 100 } 0
      { signalAt := some 50, excluderAlive := true, lastVal := some 42 }).2 = 100 ∧
    (wait_unlock { markId := 0, tpTimeout := none, timeout := 100 } 0
      { signalAt := none, excluderAlive := true, lastVal := (some 42 : Option Nat) }).1 = none ∧
    (wait_unlock { markId := 0, tpTimeout := none, timeout := 100 } 0
      { signalAt := some 50, excluderAlive := false, lastVal := (some 42 : Option Nat) }).1 =
      none :=
  ⟨(c2_wait_unlock_outcomes { markId := 0, tpTimeout := none, timeout := 100 } 0
      { signalAt := some 50, excluderAlive := true, lastVal := some 42 }).2.2.1 50 42 rfl
      (by decide) rfl rfl,
   (c2_wait_unlock_outcomes { markId := 0, tpTimeout := none, timeout := 100 } 0
      { signalAt := some 50, excluderAlive := true, lastVal := (some 42 : Option Nat) }).1 rfl,
   (c2_wait_unlock_outcomes { markId := 0, tpTimeout := none, timeout := 100 } 0
      { signalAt := none, excluderAlive := true, lastVal := (some 42 : Option Nat) }).2.2.2.1 rfl,
   (c2_wait_unlock_outcomes { markId := 0, tpTimeout := none, timeout := 100 } 0
      { signalAt := some 50, excluderAlive := false, lastVal := (some 42 : Option Nat) }
      ).2.2.2.2.2.1 rfl⟩

/-- Unfolding of subscribe when no subscription state is alive and on_start
succeeds. -/
theorem subscribe_dead_ok (m : NotifierModel) (h : upgradeTarget m = none) :
    subscribe m true =
      ({ m with
          starts := m.starts + 1,
          counts := Function.update m.counts m.nextId 1,
          curWeak := some m.nextId,
          nextId := m.nextId + 1 }, some m.nextId) := by
  unfold subscribe
  rw [h]
  rfl

/-- Unfolding of subscribe when no subscription state is alive and on_start
fails. -/
theorem subscribe_dead_fail (m : NotifierModel) (h : upgradeTarget m = none) :
    subscribe m false = ({ m with starts := m.starts + 1 }, none) := by
  unfold subscribe
  rw [h]
  rfl

/-- Unfolding of subscribe when the weak reference upgrades. -/
theorem subscribe_live (m : NotifierModel) (i : Nat) (b : Bool)
    (h : upgradeTarget m = some i) :
    subscribe m b =
      ({ m with counts := Function.update m.counts i (m.counts i + 1) }, some i) := by
  unfold subscribe
  rw [h]

/-- Releasing a reference to a state with no strong references is a no-op. -/
theorem dropHandle_zero (m : NotifierModel) (i : Nat) (h : m.counts i = 0) :
    dropHandle m i = m := by
  unfold dropHandle
  rw [h]

/-- Releasing the last strong reference runs on_stop. -/
theorem dropHandle_last (m : NotifierModel) (i : Nat) (h : m.counts i = 1) :
    dropHandle m i =
      { m with counts := Function.update m.counts i 0, stops := m.stops ++ [i] } := by
  unfold dropHandle
  rw [h]

/-- Releasing a non-last strong reference only decrements the count. -/
theorem dropHandle_dec (m : NotifierModel) (i : Nat) (n : Nat)
    (h : m.counts i = n + 2) :
    dropHandle m i = { m with counts := Function.update m.counts i (n + 1) } := by
  unfold dropHandle
  rw [h]

/-- C5: subscription lifecycle of a Notifier.  Starting from any model with no
live subscription state: the first subscribe creates a fresh state and the
second subscribe returns a handle sharing that same state; on_start runs
exactly once across the two calls; dropping one of the two strong references
does not run on_stop, dropping the last one runs it exactly once, and a
further release is a no-op.  A failed on_start increments the invocation
count but creates no state, and whenever a live state exists subscribe never
invokes on_start and returns the existing state. -/
theorem c5_notifier_lifecycle (m0 : NotifierModel) (h : upgradeTarget m0 = none) :
    ((subscribe m0 true).2 = some m0.nextId) ∧
    ((subscribe (subscribe m0 true).1 true).2 = some m0.nextId) ∧
    ((subscribe (subscribe m0 true).1 true).1.starts = m0.starts + 1) ∧
    ((dropHandle (subscribe (subscribe m0 true).1 true).1 m0.nextId).stops = m0.stops) ∧
    ((dropHandle (dropHandle (subscribe (subscribe m0 true).1 true).1 m0.nextId)
        m0.nextId).stops = m0.stops ++ [m0.nextId]) ∧
    (dropHandle (dropHandle (dropHandle (subscribe (subscribe m0 true).1 true).1
        m0.nextId) m0.nextId) m0.nextId =
      dropHandle (dropHandle (subscribe (subscribe m0 true).1 true).1 m0.nextId)
        m0.nextId) ∧
    ((subscribe m0 false).1.starts = m0.starts + 1) ∧
    ((subscribe m0 false).1.curWeak = m0.curWeak) ∧
    ((subscribe m0 false).2 = none) ∧
    (∀ (m : NotifierModel) (id : Nat) (b : Bool), upgradeTarget m = some id →
      (subscribe m b).2 = some id ∧ (subscribe m b).1.starts = m.starts ∧
        (subscribe m b).1.curWeak = m.curWeak) := by
  have e1 := subscribe_dead_ok m0 h
  have hup1 : upgradeTarget (subscribe m0 true).1 = some m0.nextId := by
    rw [e1]
    simp [upgradeTarget, Function.update_same]
  have hc1 : (subscribe m0 true).1.counts m0.nextId = 1 := by
    rw [e1]
    simp [Function.update_same]
  have e2 := subscribe_live _ _ true hup1
  have hc2 : (subscribe (subscribe m0 true).1 true).1.counts m0.nextId = 2 := by
    rw [e2]
    simp [Function.update_same, hc1]
  have e3 := dropHandle_dec _ _ 0 hc2
  have hcd1 : (dropHandle (subscribe (subscribe m0 true).1 true).1 m0.nextId).counts
      m0.nextId = 1 := by
    rw [e3]
    simp [Function.update_same]
  have e4 := dropHandle_last _ _ hcd1
  have hcd2 : (dropHandle (dropHandle (subscribe (subscribe m0 true).1 true).1 m0.nextId)
      m0.nextId).counts m0.nextId = 0 := by
    rw [e4]
    simp [Function.update_same]
  have e5 := dropHandle_zero _ _ hcd2
  refine ⟨?_, ?_, ?_, ?_, ?_, ?_, ?_, ?_, ?_, ?_⟩
  · rw [e1]
  · rw [e2]
  · rw [e2, e1]
  · rw [e3, e2, e1]
  · rw [e4, e3, e2, e1]
  · exact e5
  · rw [subscribe_dead_fail m0 h]
  · rw [subscribe_dead_fail m0 h]
  · rw [subscribe_dead_fail m0 h]
  · intro m i b hm
    rw [subscribe_live _ _ b hm]
    exact ⟨rfl, rfl, rfl⟩

/-- Witness for c5_notifier_lifecycle at the concrete empty notifier: the two
subscribe calls share state 0, on_start ran once, and on_stop runs only at the
second release. -/
theorem c5_notifier_lifecycle_witness :
    (subscribe notifierEx true).2 = some 0 ∧
    (subscribe (subscribe notifierEx true).1 true).2 = some 0 ∧
    (subscribe (subscribe notifierEx true).1 true).1.starts = 1 ∧
    (dropHandle (subscribe (subscribe notifierEx true).1 true).1 0).stops = [] ∧
    (dropHandle (dropHandle (subscribe (subscribe notifierEx true).1 true).1 0) 0).stops
      = [0] :=
  ⟨(c5_notifier_lifecycle notifierEx rfl).1,
   (c5_notifier_lifecycle notifierEx rfl).2.1,
   (c5_notifier_lifecycle notifierEx rfl).2.2.1,
   (c5_notifier_lifecycle notifierEx rfl).2.2.2.1,
   (c5_notifier_lifecycle notifierEx rfl).2.2.2.2.1⟩

/-- Unfolding of the combined stream when already fused. -/
theorem runSU_true {T E : Type} (c : E → Bool) (pq : Poll T × Poll E)
    (rest : List (Poll T × Poll E)) :
    runStreamUntil c true (pq :: rest) = .ready none :: runStreamUntil c true rest := rfl

/-- Unfolding of the combined stream at a live poll. -/
theorem runSU_false_cons {T E : Type} (c : E → Bool) (p : Poll T) (q : Poll E)
    (rest : List (Poll T × Poll E)) :
    runStreamUntil c false ((p, q) :: rest) =
      orPoll p (untilPoll c q) ::
        runStreamUntil c (nextDone (orPoll p (untilPoll c q))) rest := rfl

/-- Unfolding of the combined stream at a poll whose race result ends it. -/
theorem runSU_false_end {T E : Type} (c : E → Bool) (p : Poll T) (q : Poll E)
    (rest : List (Poll T × Poll E)) (h : orPoll p (untilPoll c q) = .ready none) :
    runStreamUntil c false ((p, q) :: rest) =
      .ready none :: runStreamUntil c true rest := by
  rw [runSU_false_cons, h]
  rfl

/-- Unfolding of the combined stream at a poll whose race result is pending. -/
theorem runSU_false_pending {T E : Type} (c : E → Bool) (p : Poll T) (q : Poll E)
    (rest : List (Poll T × Poll E)) (h : orPoll p (untilPoll c q) = .pending) :
    runStreamUntil c false ((p, q) :: rest) =
      .pending :: runStreamUntil c false rest := by
  rw [runSU_false_cons, h]
  rfl

/-- Unfolding of the combined stream at a poll that yields a primary item. -/
theorem runSU_false_item {T E : Type} (c : E → Bool) (p : Poll T) (q : Poll E)
    (rest : List (Poll T × Poll E)) (x : T)
    (h : orPoll p (untilPoll c q) = .ready (some x)) :
    runStreamUntil c false ((p, q) :: rest) =
      .ready (some x) :: runStreamUntil c false rest := by
  rw [runSU_false_cons, h]
  rfl

/-- Once fused, every poll of the combined stream is `ready none` without the
underlying streams being polled. -/
theorem runSU_true_replicate {T E : Type} (c : E → Bool) :
    ∀ ps : List (Poll T × Poll E),
      runStreamUntil c true ps = List.replicate ps.length (.ready none) := by
  intro ps
  induction ps with
  | nil => rfl
  | cons pq rest ih =>
    rw [runSU_true, ih, List.length_cons, List.replicate_succ]

/-- A sequence of end-of-stream polls yields no items. -/
theorem pollItems_replicate_none {T : Type} (n : Nat) :
    pollItems (List.replicate n (Poll.ready (none : Option T))) = [] := by
  induction n with
  | zero => rfl
  | succ n ih =>
    rw [List.replicate_succ]
    exact ih

/-- The sentinel stream never yields an item. -/
theorem untilPoll_no_item {T E : Type} (c : E → Bool) (q : Poll E) (x : T) :
    untilPoll c q ≠ (.ready (some x) : Poll T) := by
  intro h
  rcases q with _ | qitem
  · simp [untilPoll] at h
  · rcases qitem with _ | e
    · simp [untilPoll] at h
    · by_cases hc : c e
      · simp [untilPoll, hc] at h
      · simp [untilPoll, hc] at h

/-- Items of the combined stream form a prefix of the primary stream's
items. -/
theorem pollItems_runSU_prefixOf {T E : Type} (c : E → Bool) :
    ∀ ps : List (Poll T × Poll E),
      listPrefixOf (pollItems (runStreamUntil c false ps))
        (pollItems (ps.map Prod.fst)) := by
  intro ps
  induction ps with
  | nil => exact ⟨[], rfl⟩
  | cons pq rest ih =>
    obtain ⟨p, q⟩ := pq
    rcases hp : p with _ | pitem
    · rcases hr : orPoll Poll.pending (untilPoll c q) with _ | ritem
      · rw [runSU_false_pending c _ q rest hr]
        exact ih
      · rcases ritem with _ | x
        · rw [runSU_false_end c _ q rest hr]
          refine ⟨pollItems ((rest.map Prod.fst)), ?_⟩
          have hnil : pollItems (Poll.ready (none : Option T) ::
              runStreamUntil c true rest) = [] := by
            rw [runSU_true_replicate c rest]
            exact pollItems_replicate_none rest.length
          rw [hnil]
          rfl
        · exfalso
          have : untilPoll c q = (.ready (some x) : Poll T) := hr
          exact untilPoll_no_item c q x this
    · rcases pitem with _ | x
      · have hr : orPoll (Poll.ready (none : Option T)) (untilPoll c q) = .ready none := rfl
        rw [runSU_false_end c _ q rest hr]
        refine ⟨pollItems ((rest.map Prod.fst)), ?_⟩
        have hnil : pollItems (Poll.ready (none : Option T) ::
            runStreamUntil c true rest) = [] := by
          rw [runSU_true_replicate c rest]
          exact pollItems_replicate_none rest.length
        rw [hnil]
        rfl
      · have hr : orPoll (Poll.ready (some x)) (untilPoll c q) = .ready (some x) := rfl
        rw [runSU_false_item c _ q rest x hr]
        obtain ⟨t, ht⟩ := ih
        refine ⟨t, ?_⟩
        show x :: (pollItems (runStreamUntil c false rest) ++ t) = _
        rw [ht]
        rfl

/-- Once the combined stream has returned end-of-stream at position i, every
later position also returns end-of-stream. -/
theorem runSU_perm {T E : Type} (c : E → Bool) :
    ∀ (ps : List (Poll T × Poll E)) (done : Bool) (i j : Nat), i ≤ j →
      (runStreamUntil c done ps)[i]? = some (.ready none) →
      j < (runStreamUntil c done ps).length →
      (runStreamUntil c done ps)[j]? = some (.ready none) := by
  intro ps
  induction ps with
  | nil =>
    intro done i j hij hi hj
    simp [runStreamUntil] at hi
  | cons pq rest ih =>
    intro done i j hij hi hj
    cases done with
    | true =>
      rw [runSU_true_replicate c (pq :: rest)] at hj ⊢
      rw [List.length_replicate] at hj
      simp only [List.length_cons] at hj
      simp [List.getElem?_replicate]
      omega
    | false =>
      obtain ⟨p, q⟩ := pq
      rcases hr : orPoll p (untilPoll c q) with _ | ritem
      · rw [runSU_false_pending c p q rest hr] at hi hj ⊢
        cases i with
        | zero => simp at hi
        | succ i' =>
          cases j with
          | zero => omega
          | succ j' =>
            rw [List.getElem?_cons_succ] at hi ⊢
            rw [List.length_cons] at hj
            exact ih false i' j' (by omega) hi (by omega)
      · rcases ritem with _ | x
        · rw [runSU_false_end c p q rest hr] at hi hj ⊢
          cases j with
          | zero => rw [List.getElem?_cons_zero]
          | succ j' =>
            rw [List.getElem?_cons_succ]
            rw [List.length_cons] at hj
            rw [runSU_true_replicate c rest] at hj ⊢
            rw [List.length_replicate] at hj
            have hj' : j' < rest.length := by omega
            simp [List.getElem?_replicate, hj']
        · rw [runSU_false_item c p q rest x hr] at hi hj ⊢
          cases i with
          | zero => simp at hi
          | succ i' =>
            cases j with
            | zero => omega
            | succ j' =>
              rw [List.getElem?_cons_succ] at hi ⊢
              rw [List.length_cons] at hj
              exact ih false i' j' (by omega) hi (by omega)

/-- C6: the stream built by StreamUntil::create yields exactly a prefix of the
primary stream's items; at every poll it ends exactly when the primary stream
ends, or the primary stream is pending and the event stream yields an item
satisfying the predicate or itself ends — whichever comes first; and after its
first end it is permanently terminated: every later poll returns
end-of-stream. -/
theorem c6_stream_until {T E : Type} (c : E → Bool) (ps : List (Poll T × Poll E)) :
    listPrefixOf (pollItems (runStreamUntil c false ps))
      (pollItems (ps.map Prod.fst)) ∧
    (∀ (p : Poll T) (q : Poll E),
      orPoll p (untilPoll c q) = .ready none ↔
        p = .ready none ∨
          (p = .pending ∧
            (q = .ready none ∨ ∃ e, q = .ready (some e) ∧ c e = true))) ∧
    (∀ i j, i ≤ j →
      (runStreamUntil c false ps)[i]? = some (.ready none) →
      j < (runStreamUntil c false ps).length →
      (runStreamUntil c false ps)[j]? = some (.ready none)) := by
  refine ⟨pollItems_runSU_prefixOf c ps, ?_, ?_⟩
  · intro p q
    rcases p with _ | pitem
    · rcases q with _ | qitem
      · simp [orPoll, untilPoll]
      · rcases qitem with _ | e
        · simp [orPoll, untilPoll]
        · by_cases hc : c e
          · simp [orPoll, untilPoll, hc]
          · simp [orPoll, untilPoll, hc]
    · rcases pitem with _ | x
      · simp [orPoll]
      · simp [orPoll]
  · exact runSU_perm c ps false

/-- Witness for c6_stream_until at a concrete trace: the combined stream ends
at poll 1 (matching event) and poll 2 still returns end-of-stream. -/
theorem c6_stream_until_witness :
    (runStreamUntil (fun e => e == 1) false untilPollsEx)[1]? =
      some (.ready none) ∧
    (runStreamUntil (fun e => e == 1) false untilPollsEx)[2]? =
      some (.ready none) :=
  ⟨by decide,
   (c6_stream_until (fun e => e == 1) untilPollsEx).2.2 1 2 (by decide) (by decide)
     (by decide)⟩

end AndroidBle
